import Mathlib

/-!
# Verification of the `dx` settings module (`dx/settings.py`)

Shallow embedding of the configuration / display-mode layer:
the pydantic `Settings` model with its validators, the `set_option`
single point of mutation, the `set_display_mode` mode controller,
the `settings_context` scoped-override context manager and
`add_renderable_type`.

Stateful Python code is embedded as explicit state passing over a
`State` record that holds the `Settings` instance, the mirrored pandas
options (`display.max_rows`, `display.max_columns`,
`html.table_schema`), the level of the `"dx"` logger, and the trace
of IPython formatter-registration actions
(`register` / `deregister` / `reset`).

Fallible code returns `Except (PyErr × State) State`: an exception
carries the state at raise time, because in Python the side effects
performed before a raise persist.
-/

/-- Display modes.  Modelled from the spec (the repository file
`dx/types.py` declaring `DXDisplayMode` is not part of the sources):
"States: `plain`, `simple`, `enhanced` (closed enumeration)"; the
enum member values are the lowercase mode names and `str(mode)`
returns the value. -/
inductive DXDisplayMode
  | plain
  | simple
  | enhanced
deriving DecidableEq, Repr

/-- The string value of a `DXDisplayMode` member (`mode.value`,
also returned by `str(mode)`). -/
def DXDisplayMode.value : DXDisplayMode → String
  | .plain => "plain"
  | .simple => "simple"
  | .enhanced => "enhanced"

/-- Sampling strategies.  Modelled from the spec (the repository file
`dx/types.py` declaring `DXSamplingMethod` is not part of the
sources): "sampling method fields (each one of a closed set of
sampling strategies)", with `random` the default named by the code. -/
inductive DXSamplingMethod
  | random
  | first
  | last
deriving DecidableEq, Repr

/-- The string value of a `DXSamplingMethod` member. -/
def DXSamplingMethod.value : DXSamplingMethod → String
  | .random => "random"
  | .first => "first"
  | .last => "last"

/-- Python types resolvable by `eval` in the namespace of
`dx/settings.py` (builtins plus `pandas as pd`). -/
inductive RType
  | tInt
  | tStr
  | tFloat
  | tBool
  | tPdSeries
  | tPdDataFrame
deriving DecidableEq, Repr

/-- The name under which an `RType` is resolvable by `eval`. -/
def RType.name : RType → String
  | .tInt => "int"
  | .tStr => "str"
  | .tFloat => "float"
  | .tBool => "bool"
  | .tPdSeries => "pd.Series"
  | .tPdDataFrame => "pd.DataFrame"

/-- A hashable Python value that can live inside the
`RENDERABLE_OBJECTS` set: a type object, a raw string, an int,
a bool, or `None`. -/
inductive RElem
  | rtype (t : RType)
  | rstr (s : String)
  | rint (n : Int)
  | rbool (b : Bool)
  | rnone
deriving DecidableEq, Repr

/-- A Python value as passed around by the settings module.
`vFloat` models a Python float as a rational (no float arithmetic is
performed by the code under verification).  `vSet` models a Python
set of hashable elements (value semantics: Python set equality
ignores order), `vList` an ordered list of such elements. -/
inductive PyVal
  | vInt (n : Int)
  | vBool (b : Bool)
  | vStr (s : String)
  | vFloat (q : ℚ)
  | vNone
  | vType (t : RType)
  | vMode (m : DXDisplayMode)
  | vSampling (m : DXSamplingMethod)
  | vSet (xs : Finset RElem)
  | vList (xs : List RElem)
deriving DecidableEq

/-- Python truthiness (`bool(v)`), as used by the walrus test
`if display_mode := option_kwargs.pop("DISPLAY_MODE", None):`. -/
def pyTruthy : PyVal → Bool
  | .vInt n => n ≠ 0
  | .vBool b => b
  | .vStr s => s ≠ ""
  | .vFloat q => q ≠ 0
  | .vNone => false
  | .vType _ => true
  | .vMode _ => true
  | .vSampling _ => true
  | .vSet xs => xs ≠ ∅
  | .vList xs => xs ≠ []

/-- `str(e)` for set elements. -/
def RElem.pyStr : RElem → String
  | .rtype t => "<class '" ++ t.name ++ "'>"
  | .rstr s => s
  | .rint n => toString n
  | .rbool true => "True"
  | .rbool false => "False"
  | .rnone => "None"

/-- `str(v)` for Python values (total; only the cases exercised by
the code paths under verification matter: strings are themselves,
enum members print their value). -/
def PyVal.pyStr : PyVal → String
  | .vInt n => toString n
  | .vBool true => "True"
  | .vBool false => "False"
  | .vStr s => s
  | .vFloat q => toString q
  | .vNone => "None"
  | .vType t => "<class '" ++ t.name ++ "'>"
  | .vMode m => m.value
  | .vSampling m => m.value
  | .vSet _ => "\x7b...\x7d"
  | .vList _ => "[...]"

/-- ASCII uppercase of a character, modelling Python `str.upper` on
the ASCII field names used by this module. -/
def upChar (c : Char) : Char :=
  match c with
  | 'a' => 'A' | 'b' => 'B' | 'c' => 'C' | 'd' => 'D' | 'e' => 'E'
  | 'f' => 'F' | 'g' => 'G' | 'h' => 'H' | 'i' => 'I' | 'j' => 'J'
  | 'k' => 'K' | 'l' => 'L' | 'm' => 'M' | 'n' => 'N' | 'o' => 'O'
  | 'p' => 'P' | 'q' => 'Q' | 'r' => 'R' | 's' => 'S' | 't' => 'T'
  | 'u' => 'U' | 'v' => 'V' | 'w' => 'W' | 'x' => 'X' | 'y' => 'Y'
  | 'z' => 'Z'
  | c => c

/-- `str.upper()` (ASCII model). -/
def pyUpper (s : String) : String := ⟨s.data.map upChar⟩

set_option maxHeartbeats 1000000 in
theorem upChar_idem (c : Char) : upChar (upChar c) = upChar c := by
  unfold upChar
  split
  all_goals first
    | rfl
    | (split <;> first | rfl | contradiction | simp_all)

theorem pyUpper_idem (s : String) : pyUpper (pyUpper s) = pyUpper s := by
  have h : upChar ∘ upChar = upChar := funext upChar_idem
  simp only [pyUpper, List.map_map, h]

/-- The Python exceptions raised by this module.  `validationError`
is a pydantic `ValidationError` (pydantic wraps `ValueError` /
`TypeError` raised by validators or by type coercion during a
validated assignment); `valueError` is a `ValueError` raised
directly by module code; `typeError` a `TypeError` raised outside a
validator. -/
inductive PyErr
  | validationError (msg : String)
  | valueError (msg : String)
  | typeError (msg : String)
deriving DecidableEq, Repr

/-- The `Settings(BaseSettings)` field record, in declaration order. -/
structure Settings where
  LOG_LEVEL : Int
  DISPLAY_MAX_ROWS : Int
  DISPLAY_MAX_COLUMNS : Int
  HTML_TABLE_SCHEMA : Bool
  MEDIA_TYPE : String
  MAX_RENDER_SIZE_BYTES : Int
  RENDERABLE_OBJECTS : Finset RElem
  SAMPLING_FACTOR : ℚ
  DISPLAY_MODE : DXDisplayMode
  SAMPLING_METHOD : DXSamplingMethod
  COLUMN_SAMPLING_METHOD : DXSamplingMethod
  ROW_SAMPLING_METHOD : DXSamplingMethod
  RANDOM_STATE : Int
  RESET_INDEX_VALUES : Bool
  FLATTEN_INDEX_VALUES : Bool
  FLATTEN_COLUMN_VALUES : Bool
  STRINGIFY_INDEX_VALUES : Bool
  STRINGIFY_COLUMN_VALUES : Bool
  DATETIME_STRING_FORMAT : String
  ENABLE_DATALINK : Bool
deriving DecidableEq

/-- The mirrored option store of the external display engine
(pandas).  Options hold the raw (already pandas-validated) values
they were set to. -/
structure PandasOptions where
  max_rows : PyVal
  max_columns : PyVal
  table_schema : PyVal
deriving DecidableEq

/-- One call into the external IPython formatter registry. -/
inductive ExtAction
  | register
  | deregister
  | reset
deriving DecidableEq, Repr

/-- The full mutable state: the process-wide `settings` instance,
the pandas option store, the level of the `"dx"` logger, and the
trace of formatter-registry calls (most recent last). -/
structure State where
  settings : Settings
  pandas : PandasOptions
  dxLogLevel : PyVal
  actions : List ExtAction
deriving DecidableEq

instance {ε α : Type} [DecidableEq ε] [DecidableEq α] : DecidableEq (Except ε α)
  | .ok a, .ok b =>
    if h : a = b then .isTrue (by rw [h]) else .isFalse (by simp [h])
  | .ok _, .error _ => .isFalse (by simp)
  | .error _, .ok _ => .isFalse (by simp)
  | .error a, .error b =>
    if h : a = b then .isTrue (by rw [h]) else .isFalse (by simp [h])

/-- `MB = 1024 * 1024`. -/
def MB : Int := 1024 * 1024

/-- The rational `1/10`, written in normal form so that kernel
reduction of state equality never has to normalize a fraction. -/
def ratTenth : ℚ := ⟨1, 10, by decide, Nat.coprime_one_left 10⟩

/-- The declared field defaults of `Settings`
(`logging.WARNING = 30`). -/
def defaultSettings : Settings where
  LOG_LEVEL := 30
  DISPLAY_MAX_ROWS := 60
  DISPLAY_MAX_COLUMNS := 20
  HTML_TABLE_SCHEMA := false
  MEDIA_TYPE := "application/vnd.dataresource+json"
  MAX_RENDER_SIZE_BYTES := 100 * MB
  RENDERABLE_OBJECTS := ∅
  SAMPLING_FACTOR := ratTenth
  DISPLAY_MODE := .simple
  SAMPLING_METHOD := .random
  COLUMN_SAMPLING_METHOD := .random
  ROW_SAMPLING_METHOD := .random
  RANDOM_STATE := 12648430
  RESET_INDEX_VALUES := false
  FLATTEN_INDEX_VALUES := false
  FLATTEN_COLUMN_VALUES := false
  STRINGIFY_INDEX_VALUES := false
  STRINGIFY_COLUMN_VALUES := false
  DATETIME_STRING_FORMAT := "%Y-%m-%dT%H:%M:%S.%f"
  ENABLE_DATALINK := false

/-- The state right after `settings = get_settings()` constructs the
default `Settings()`: construction runs the `always=True` validators,
which push the row/column/table-schema defaults into pandas.  The
`"dx"` logger starts at the `logging` default `NOTSET = 0`; no
formatter-registry call has happened. -/
def initState : State where
  settings := defaultSettings
  pandas := ⟨.vInt 60, .vInt 20, .vBool false⟩
  dxLogLevel := .vInt 0
  actions := []

/-- The single-quote character (used for Python string literals). -/
def quoteChar : Char := Char.ofNat 39

/-- The numeric value of an ASCII digit character. -/
def charDigit (c : Char) : Option Nat :=
  if 48 ≤ c.toNat ∧ c.toNat ≤ 57 then some (c.toNat - 48) else none

/-- Accumulate the decimal value of a digit string. -/
def digitsValAux : List Char → Nat → Option Nat
  | [], acc => some acc
  | c :: rest, acc =>
    match charDigit c with
    | some d => digitsValAux rest (acc * 10 + d)
    | none => none

/-- The value of a non-empty decimal digit string. -/
def digitsVal (ds : List Char) : Option Nat :=
  if ds = [] then none else digitsValAux ds 0

/-- Python integer literals (an optional minus sign and decimal
digits), as recognized by `eval`. -/
def pyIntLit (s : String) : Option Int :=
  match s.data with
  | [] => none
  | c :: ds =>
    if c = Char.ofNat 45 then (digitsVal ds).map (fun n => -(n : Int))
    else (digitsVal (c :: ds)).map (fun n => (n : Int))

/-- Type names resolvable by `eval` in the namespace of
`dx/settings.py` (builtins plus `import pandas as pd`; note that
`numpy` is NOT imported there, so `np.ndarray` is not resolvable). -/
def evalName (s : String) : Option RType :=
  if s = "int" then some .tInt
  else if s = "str" then some .tStr
  else if s = "float" then some .tFloat
  else if s = "bool" then some .tBool
  else if s = "pd.Series" then some .tPdSeries
  else if s = "pd.DataFrame" then some .tPdDataFrame
  else none

/-- Model of the Python builtin `eval` applied to a simple token in
the module namespace: known type names resolve to type objects,
`True` / `False` / `None` to their constants, integer literals to
ints, single-quoted string literals to strings; anything else raises
a `NameError`.  (A model of a builtin; eval of compound expressions
is outside the shapes this module is exercised with.) -/
def pyEval (s : String) : Except String RElem :=
  match evalName s with
  | some t => .ok (.rtype t)
  | none =>
    if s = "True" then .ok (.rbool true)
    else if s = "False" then .ok (.rbool false)
    else if s = "None" then .ok .rnone
    else match pyIntLit s with
      | some n => .ok (.rint n)
      | none =>
        if 2 ≤ s.data.length ∧ s.data.head? = some quoteChar ∧
            s.data.getLast? = some quoteChar then
          .ok (.rstr ⟨(s.data.drop 1).dropLast⟩)
        else .error ("name '" ++ s ++ "' is not defined")

/-- One iteration of the `validate_renderables` loop body for a set
element: a value that is already a type is kept, anything else is
`eval(str(val))`-ed. -/
def resolveElem : RElem → Except String RElem
  | .rtype t => .ok (.rtype t)
  | e => pyEval e.pyStr

/-- The `ValueError` message raised when a set element cannot be
evaluated (names the offending input token via `str(val)`). -/
def resolveErrMsg (e : RElem) (emsg : String) : String :=
  "can't evaluate " ++ e.pyStr ++ " type as renderable object: " ++ emsg

/-- The resolved form of a set element (meaningful when
`resolveElem` succeeds). -/
def resolvedOf (e : RElem) : RElem :=
  match resolveElem e with
  | .ok r => r
  | .error _ => e

/-- The loop of `validate_renderables` over a set of elements:
every element is resolved; if any element fails, a `ValueError`
naming it is raised.  (Python iterates the set in hash order and
raises at the first failing element; the model picks the
lexicographically smallest failure message, which agrees with Python
whenever at most one element fails.) -/
def validate_renderables_core (xs : Finset RElem) : Except String (Finset RElem) :=
  let msgs : Finset String :=
    (xs.filter fun e => ¬ (resolveElem e).isOk).image fun e =>
      resolveErrMsg e (match resolveElem e with | .error m => m | .ok _ => "")
  if h : msgs.Nonempty then .error (msgs.min' h)
  else .ok (xs.image resolvedOf)

/-- The Python value corresponding to a hashable set element. -/
def toRElem : PyVal → Option RElem
  | .vType t => some (.rtype t)
  | .vStr s => some (.rstr s)
  | .vInt n => some (.rint n)
  | .vBool b => some (.rbool b)
  | .vNone => some .rnone
  | _ => none

/-- Whether a set element is a Python class (`isinstance(v, type)`),
as checked by pydantic's `any_class_validator` for the declared
`Set[type]` field type. -/
def RElem.isType : RElem → Bool
  | .rtype _ => true
  | _ => false

/-- `validate_renderables` (pre-validator of `RENDERABLE_OBJECTS`).
A string input is comma-stripped and whitespace-split into a LIST by
`vals.replace(",", "").split()`, after which `vals = {vals}` tries
to put that (unhashable) list into a set and raises
`TypeError: unhashable type: 'list'` — so bare string inputs never
reach the element loop.  A set input is validated elementwise. -/
def validate_renderables (vals : PyVal) : Except String (Finset RElem) :=
  match vals with
  | .vStr _ => .error "unhashable type: 'list'"
  | .vList _ => .error "unhashable type: 'list'"
  | .vSet xs => validate_renderables_core xs
  | w =>
    match toRElem w with
    | some e => validate_renderables_core {e}
    | none => .error "unhashable type"

/-- The Python type name of a value (for error messages). -/
def pyTypeName : PyVal → String
  | .vInt _ => "int"
  | .vBool _ => "bool"
  | .vStr _ => "str"
  | .vFloat _ => "float"
  | .vNone => "NoneType"
  | .vType _ => "type"
  | .vMode _ => "DXDisplayMode"
  | .vSampling _ => "DXSamplingMethod"
  | .vSet _ => "set"
  | .vList _ => "list"

/-- The Python comparison `val < 0` (raises `TypeError` for
non-numeric values in Python 3; `bool` counts as numeric and is
never `< 0`). -/
def pyLtZero (v : PyVal) : Except String Bool :=
  match v with
  | .vInt n => .ok (decide (n < 0))
  | .vBool _ => .ok false
  | .vFloat q => .ok (decide (q < 0))
  | w => .error ("'<' not supported between instances of '" ++ pyTypeName w ++ "' and 'int'")

/-- The option keys of the external pandas option store written by
this module. -/
inductive PdKey
  | max_rows
  | max_columns
  | table_schema
deriving DecidableEq, Repr

/-- Model of `pandas.set_option` for the three keys used:
`display.max_rows` / `display.max_columns` accept `None` or a
non-negative int (`bool` is an int in Python); `html.table_schema`
accepts a bool.  Anything else raises a `ValueError`. -/
def pandas_set_option (k : PdKey) (v : PyVal) (s : State) : Except String State :=
  match k with
  | .max_rows =>
    match v with
    | .vNone => .ok {s with pandas.max_rows := v}
    | .vInt n =>
      if 0 ≤ n then .ok {s with pandas.max_rows := v}
      else .error "Value must be a nonnegative integer or None"
    | .vBool _ => .ok {s with pandas.max_rows := v}
    | _ => .error "Value must be a nonnegative integer or None"
  | .max_columns =>
    match v with
    | .vNone => .ok {s with pandas.max_columns := v}
    | .vInt n =>
      if 0 ≤ n then .ok {s with pandas.max_columns := v}
      else .error "Value must be a nonnegative integer or None"
    | .vBool _ => .ok {s with pandas.max_columns := v}
    | _ => .error "Value must be a nonnegative integer or None"
  | .table_schema =>
    match v with
    | .vBool _ => .ok {s with pandas.table_schema := v}
    | _ => .error "Value must have type bool"

/-- The declared fields of `Settings` (the keys of
`vars(settings)`). -/
inductive FieldKey
  | LOG_LEVEL | DISPLAY_MAX_ROWS | DISPLAY_MAX_COLUMNS | HTML_TABLE_SCHEMA
  | MEDIA_TYPE | MAX_RENDER_SIZE_BYTES | RENDERABLE_OBJECTS | SAMPLING_FACTOR
  | DISPLAY_MODE | SAMPLING_METHOD | COLUMN_SAMPLING_METHOD | ROW_SAMPLING_METHOD
  | RANDOM_STATE | RESET_INDEX_VALUES | FLATTEN_INDEX_VALUES | FLATTEN_COLUMN_VALUES
  | STRINGIFY_INDEX_VALUES | STRINGIFY_COLUMN_VALUES | DATETIME_STRING_FORMAT
  | ENABLE_DATALINK
deriving DecidableEq, Repr

/-- `name in vars(settings)`: look a (normalized) name up among the
declared fields. -/
def parseField : String → Option FieldKey
  | "LOG_LEVEL" => some .LOG_LEVEL
  | "DISPLAY_MAX_ROWS" => some .DISPLAY_MAX_ROWS
  | "DISPLAY_MAX_COLUMNS" => some .DISPLAY_MAX_COLUMNS
  | "HTML_TABLE_SCHEMA" => some .HTML_TABLE_SCHEMA
  | "MEDIA_TYPE" => some .MEDIA_TYPE
  | "MAX_RENDER_SIZE_BYTES" => some .MAX_RENDER_SIZE_BYTES
  | "RENDERABLE_OBJECTS" => some .RENDERABLE_OBJECTS
  | "SAMPLING_FACTOR" => some .SAMPLING_FACTOR
  | "DISPLAY_MODE" => some .DISPLAY_MODE
  | "SAMPLING_METHOD" => some .SAMPLING_METHOD
  | "COLUMN_SAMPLING_METHOD" => some .COLUMN_SAMPLING_METHOD
  | "ROW_SAMPLING_METHOD" => some .ROW_SAMPLING_METHOD
  | "RANDOM_STATE" => some .RANDOM_STATE
  | "RESET_INDEX_VALUES" => some .RESET_INDEX_VALUES
  | "FLATTEN_INDEX_VALUES" => some .FLATTEN_INDEX_VALUES
  | "FLATTEN_COLUMN_VALUES" => some .FLATTEN_COLUMN_VALUES
  | "STRINGIFY_INDEX_VALUES" => some .STRINGIFY_INDEX_VALUES
  | "STRINGIFY_COLUMN_VALUES" => some .STRINGIFY_COLUMN_VALUES
  | "DATETIME_STRING_FORMAT" => some .DATETIME_STRING_FORMAT
  | "ENABLE_DATALINK" => some .ENABLE_DATALINK
  | _ => none

/-- pydantic `int` coercion (for the value shapes that occur). -/
def coerceInt : PyVal → Except String Int
  | .vInt n => .ok n
  | .vBool b => .ok (if b then 1 else 0)
  | .vStr s =>
    match pyIntLit s with
    | some n => .ok n
    | none => .error "value is not a valid integer"
  | .vFloat q => .ok (if 0 ≤ q then q.floor else q.ceil)
  | _ => .error "value is not a valid integer"

/-- pydantic `bool` coercion (for the value shapes that occur). -/
def coerceBool : PyVal → Except String Bool
  | .vBool b => .ok b
  | .vInt n =>
    if n = 0 then .ok false
    else if n = 1 then .ok true
    else .error "value could not be parsed to a boolean"
  | _ => .error "value could not be parsed to a boolean"

/-- pydantic `str` coercion (for the value shapes that occur). -/
def coerceStr : PyVal → Except String String
  | .vStr s => .ok s
  | .vInt n => .ok (toString n)
  | .vFloat q => .ok (toString q)
  | _ => .error "str type expected"

/-- pydantic `float` coercion (for the value shapes that occur). -/
def coerceFloat : PyVal → Except String ℚ
  | .vFloat q => .ok q
  | .vInt n => .ok n
  | _ => .error "value is not a valid float"

/-- The pydantic error message for an invalid `DXDisplayMode`. -/
def modeEnumErrMsg : String :=
  "value is not a valid enumeration member; permitted: 'enhanced', 'plain', 'simple'"

/-- pydantic coercion to the `DXDisplayMode` enum: members pass
through, member values (strings) are looked up, everything else
fails validation. -/
def coerceMode : PyVal → Except String DXDisplayMode
  | .vMode m => .ok m
  | .vStr s =>
    if s = "plain" then .ok .plain
    else if s = "simple" then .ok .simple
    else if s = "enhanced" then .ok .enhanced
    else .error modeEnumErrMsg
  | _ => .error modeEnumErrMsg

/-- pydantic coercion to the `DXSamplingMethod` enum. -/
def coerceSampling : PyVal → Except String DXSamplingMethod
  | .vSampling m => .ok m
  | .vStr s =>
    if s = "random" then .ok .random
    else if s = "first" then .ok .first
    else if s = "last" then .ok .last
    else .error "value is not a valid enumeration member"
  | _ => .error "value is not a valid enumeration member"

/-- A pydantic validated assignment `setattr(settings, field, value)`
(`Config.validate_assignment = True`): runs the field's `pre`
validator (which for the row/column/table-schema fields pushes into
pandas as a side effect), then coerces to the declared type and
stores.  A failure raises a `ValidationError`; side effects already
performed inside the validator persist in the carried state. -/
def settings_setattr (fk : FieldKey) (v : PyVal) (s : State) :
    Except (PyErr × State) State :=
  match fk with
  | .LOG_LEVEL =>
    match coerceInt v with
    | .ok n => .ok {s with settings.LOG_LEVEL := n}
    | .error m => .error (.validationError m, s)
  | .DISPLAY_MAX_ROWS =>
    match pyLtZero v with
    | .error m => .error (.validationError m, s)
    | .ok true => .error (.validationError "DISPLAY_MAX_ROWS must be >= 0", s)
    | .ok false =>
      match pandas_set_option .max_rows v s with
      | .error m => .error (.validationError m, s)
      | .ok s1 =>
        match coerceInt v with
        | .ok n => .ok {s1 with settings.DISPLAY_MAX_ROWS := n}
        | .error m => .error (.validationError m, s1)
  | .DISPLAY_MAX_COLUMNS =>
    match pyLtZero v with
    | .error m => .error (.validationError m, s)
    | .ok true => .error (.validationError "DISPLAY_MAX_COLUMNS must be >= 0", s)
    | .ok false =>
      match pandas_set_option .max_columns v s with
      | .error m => .error (.validationError m, s)
      | .ok s1 =>
        match coerceInt v with
        | .ok n => .ok {s1 with settings.DISPLAY_MAX_COLUMNS := n}
        | .error m => .error (.validationError m, s1)
  | .HTML_TABLE_SCHEMA =>
    match pandas_set_option .table_schema v s with
    | .error m => .error (.validationError m, s)
    | .ok s1 =>
      match coerceBool v with
      | .ok b => .ok {s1 with settings.HTML_TABLE_SCHEMA := b}
      | .error m => .error (.validationError m, s1)
  | .MEDIA_TYPE =>
    match coerceStr v with
    | .ok x => .ok {s with settings.MEDIA_TYPE := x}
    | .error m => .error (.validationError m, s)
  | .MAX_RENDER_SIZE_BYTES =>
    match coerceInt v with
    | .ok n => .ok {s with settings.MAX_RENDER_SIZE_BYTES := n}
    | .error m => .error (.validationError m, s)
  | .RENDERABLE_OBJECTS =>
    match validate_renderables v with
    | .ok xs =>
      -- after the pre-validator, pydantic validates the declared
      -- `Set[type]` element type: `any_class_validator` raises
      -- "a class is expected" for any element that is not a class
      if ∀ e ∈ xs, RElem.isType e = true then
        .ok {s with settings.RENDERABLE_OBJECTS := xs}
      else .error (.validationError "a class is expected", s)
    | .error m => .error (.validationError m, s)
  | .SAMPLING_FACTOR =>
    match coerceFloat v with
    | .ok q => .ok {s with settings.SAMPLING_FACTOR := q}
    | .error m => .error (.validationError m, s)
  | .DISPLAY_MODE =>
    match coerceMode v with
    | .ok m => .ok {s with settings.DISPLAY_MODE := m}
    | .error m => .error (.validationError m, s)
  | .SAMPLING_METHOD =>
    match coerceSampling v with
    | .ok m => .ok {s with settings.SAMPLING_METHOD := m}
    | .error m => .error (.validationError m, s)
  | .COLUMN_SAMPLING_METHOD =>
    match coerceSampling v with
    | .ok m => .ok {s with settings.COLUMN_SAMPLING_METHOD := m}
    | .error m => .error (.validationError m, s)
  | .ROW_SAMPLING_METHOD =>
    match coerceSampling v with
    | .ok m => .ok {s with settings.ROW_SAMPLING_METHOD := m}
    | .error m => .error (.validationError m, s)
  | .RANDOM_STATE =>
    match coerceInt v with
    | .ok n => .ok {s with settings.RANDOM_STATE := n}
    | .error m => .error (.validationError m, s)
  | .RESET_INDEX_VALUES =>
    match coerceBool v with
    | .ok b => .ok {s with settings.RESET_INDEX_VALUES := b}
    | .error m => .error (.validationError m, s)
  | .FLATTEN_INDEX_VALUES =>
    match coerceBool v with
    | .ok b => .ok {s with settings.FLATTEN_INDEX_VALUES := b}
    | .error m => .error (.validationError m, s)
  | .FLATTEN_COLUMN_VALUES =>
    match coerceBool v with
    | .ok b => .ok {s with settings.FLATTEN_COLUMN_VALUES := b}
    | .error m => .error (.validationError m, s)
  | .STRINGIFY_INDEX_VALUES =>
    match coerceBool v with
    | .ok b => .ok {s with settings.STRINGIFY_INDEX_VALUES := b}
    | .error m => .error (.validationError m, s)
  | .STRINGIFY_COLUMN_VALUES =>
    match coerceBool v with
    | .ok b => .ok {s with settings.STRINGIFY_COLUMN_VALUES := b}
    | .error m => .error (.validationError m, s)
  | .DATETIME_STRING_FORMAT =>
    match coerceStr v with
    | .ok x => .ok {s with settings.DATETIME_STRING_FORMAT := x}
    | .error m => .error (.validationError m, s)
  | .ENABLE_DATALINK =>
    match coerceBool v with
    | .ok b => .ok {s with settings.ENABLE_DATALINK := b}
    | .error m => .error (.validationError m, s)

/-- `set_display_mode(mode)`: assigns `settings.DISPLAY_MODE = mode`
(a validated assignment, which fails for values outside the
enumeration), then dispatches on `str(mode)` to exactly one of the
three formatter-registry calls; the trailing `else` raises for any
other value. -/
def set_display_mode (mode : PyVal) (s : State) :
    Except (PyErr × State) State :=
  match settings_setattr .DISPLAY_MODE mode s with
  | .error es => .error es
  | .ok s1 =>
    if mode.pyStr = DXDisplayMode.enhanced.value then
      .ok {s1 with actions := s1.actions ++ [.register]}
    else if mode.pyStr = DXDisplayMode.simple.value then
      .ok {s1 with actions := s1.actions ++ [.deregister]}
    else if mode.pyStr = DXDisplayMode.plain.value then
      .ok {s1 with actions := s1.actions ++ [.reset]}
    else
      .error (.valueError ("`" ++ mode.pyStr ++ "` is not a supported display mode"), s1)

/-- `set_log_level(level)`: `logging.getLogger("dx").setLevel(level)`. -/
def set_log_level (level : PyVal) (s : State) : State :=
  {s with dxLogLevel := level}

/-- `set_option(key, value)` (named `setOption` here because
`set_option` is a Lean keyword): normalizes the name with
`str(key).upper()`, rejects unknown names, performs the validated
assignment, re-pushes the raw value into pandas for the three
mirrored fields, and dispatches to `set_display_mode` /
`set_log_level` for the mode / log-level fields. -/
def setOption (key : String) (value : PyVal) (s : State) :
    Except (PyErr × State) State :=
  match parseField (pyUpper key) with
  | none => .error (.valueError ("`" ++ pyUpper key ++ "` is not a valid setting"), s)
  | some fk =>
    match settings_setattr fk value s with
    | .error es => .error es
    | .ok s1 =>
      match (match fk with
             | .DISPLAY_MAX_ROWS => pandas_set_option .max_rows value s1
             | .DISPLAY_MAX_COLUMNS => pandas_set_option .max_columns value s1
             | .HTML_TABLE_SCHEMA => pandas_set_option .table_schema value s1
             | _ => .ok s1) with
      | .error m => .error (.valueError m, s1)
      | .ok s2 =>
        match (if fk = .DISPLAY_MODE then set_display_mode value s2 else .ok s2) with
        | .error es => .error es
        | .ok s3 => .ok (if fk = .LOG_LEVEL then set_log_level value s3 else s3)

/-- Insert-or-assign into a Python dict modelled as an ordered
association list: an existing key keeps its position and gets the
new value, a new key is appended. -/
def pyDictInsert (d : List (String × PyVal)) (k : String) (v : PyVal) :
    List (String × PyVal) :=
  if d.any (fun kv => kv.1 = k) then
    d.map (fun kv => if kv.1 = k then (k, v) else kv)
  else d ++ [(k, v)]

/-- The dict comprehension
`{str(k).upper(): v for k, v in option_kwargs.items()}`. -/
def pyDictUpper (kw : List (String × PyVal)) : List (String × PyVal) :=
  kw.foldl (fun d kv => pyDictInsert d (pyUpper kv.1) kv.2) []

/-- Dict lookup (`d.get(k)` / the lookup half of `d.pop(k, None)`). -/
def pyLookup (d : List (String × PyVal)) (k : String) : Option PyVal :=
  match d.find? (fun kv => kv.1 = k) with
  | some kv => some kv.2
  | none => none

/-- The removal half of `d.pop(k, None)`. -/
def popKey (d : List (String × PyVal)) (k : String) :
    List (String × PyVal) :=
  d.filter (fun kv => ¬ kv.1 = k)

/-- `settings.dict()`: the full snapshot of the configuration as a
plain mapping, in field declaration order.  (pydantic copies
set-valued fields shallowly, so the snapshot is a value, not an
alias.) -/
def settingsDict (stg : Settings) : List (String × PyVal) :=
  [("LOG_LEVEL", .vInt stg.LOG_LEVEL),
   ("DISPLAY_MAX_ROWS", .vInt stg.DISPLAY_MAX_ROWS),
   ("DISPLAY_MAX_COLUMNS", .vInt stg.DISPLAY_MAX_COLUMNS),
   ("HTML_TABLE_SCHEMA", .vBool stg.HTML_TABLE_SCHEMA),
   ("MEDIA_TYPE", .vStr stg.MEDIA_TYPE),
   ("MAX_RENDER_SIZE_BYTES", .vInt stg.MAX_RENDER_SIZE_BYTES),
   ("RENDERABLE_OBJECTS", .vSet stg.RENDERABLE_OBJECTS),
   ("SAMPLING_FACTOR", .vFloat stg.SAMPLING_FACTOR),
   ("DISPLAY_MODE", .vMode stg.DISPLAY_MODE),
   ("SAMPLING_METHOD", .vSampling stg.SAMPLING_METHOD),
   ("COLUMN_SAMPLING_METHOD", .vSampling stg.COLUMN_SAMPLING_METHOD),
   ("ROW_SAMPLING_METHOD", .vSampling stg.ROW_SAMPLING_METHOD),
   ("RANDOM_STATE", .vInt stg.RANDOM_STATE),
   ("RESET_INDEX_VALUES", .vBool stg.RESET_INDEX_VALUES),
   ("FLATTEN_INDEX_VALUES", .vBool stg.FLATTEN_INDEX_VALUES),
   ("FLATTEN_COLUMN_VALUES", .vBool stg.FLATTEN_COLUMN_VALUES),
   ("STRINGIFY_INDEX_VALUES", .vBool stg.STRINGIFY_INDEX_VALUES),
   ("STRINGIFY_COLUMN_VALUES", .vBool stg.STRINGIFY_COLUMN_VALUES),
   ("DATETIME_STRING_FORMAT", .vStr stg.DATETIME_STRING_FORMAT),
   ("ENABLE_DATALINK", .vBool stg.ENABLE_DATALINK)]

/-- A `for setting, value in d.items(): set_option(setting, value)`
loop.  An exception mid-loop keeps the effects of the earlier
iterations. -/
def applyOptions (kw : List (String × PyVal)) (s : State) :
    Except (PyErr × State) State :=
  match kw with
  | [] => .ok s
  | (k, v) :: rest =>
    match setOption k v s with
    | .error es => .error es
    | .ok s1 => applyOptions rest s1

/-- The `try ... yield ... finally ...` block of `settings_context`:
apply the remaining overrides, run the caller's body, and
unconditionally re-apply the snapshot.  A restoration failure
replaces an in-flight exception (Python `finally` semantics). -/
def runScope {α : Type} (kw orig : List (String × PyVal))
    (body : State → Except (PyErr × State) (α × State)) (s : State) :
    Except (PyErr × State) (α × State) :=
  match applyOptions kw s with
  | .error (e, s1) =>
    match applyOptions orig s1 with
    | .error es => .error es
    | .ok s2 => .error (e, s2)
  | .ok s1 =>
    match body s1 with
    | .error (e, s2) =>
      match applyOptions orig s2 with
      | .error es => .error es
      | .ok s3 => .error (e, s3)
    | .ok (a, s2) =>
      match applyOptions orig s2 with
      | .error es => .error es
      | .ok s3 => .ok (a, s3)

/-- `settings_context(**option_kwargs)`: snapshot, normalize the
override keys to uppercase, pop a `DISPLAY_MODE` override and apply
it first when truthy (`if display_mode := option_kwargs.pop(...)`),
then run the try/finally scope.  The body receives the live state
at `yield`. -/
def settings_context {α : Type} (option_kwargs : List (String × PyVal))
    (body : State → Except (PyErr × State) (α × State)) (s : State) :
    Except (PyErr × State) (α × State) :=
  match pyLookup (pyDictUpper option_kwargs) "DISPLAY_MODE" with
  | some dm =>
    if pyTruthy dm then
      match set_display_mode dm s with
      | .error es => .error es
      | .ok s1 =>
        runScope (popKey (pyDictUpper option_kwargs) "DISPLAY_MODE")
          (settingsDict s.settings) body s1
    else
      runScope (popKey (pyDictUpper option_kwargs) "DISPLAY_MODE")
        (settingsDict s.settings) body s
  | none => runScope (pyDictUpper option_kwargs) (settingsDict s.settings) body s

/-- `add_renderable_type(renderable_type)`: wraps a non-list argument
into a one-element list and merges it into the renderable-type set
with the in-place `settings.RENDERABLE_OBJECTS.update(...)` — a
direct mutation that does NOT go through the field validator. -/
def add_renderable_type (renderable_type : PyVal) (s : State) :
    Except (PyErr × State) State :=
  match renderable_type with
  | .vList xs =>
    .ok {s with settings.RENDERABLE_OBJECTS :=
                  s.settings.RENDERABLE_OBJECTS ∪ xs.toFinset}
  | v =>
    match toRElem v with
    | some e =>
      .ok {s with settings.RENDERABLE_OBJECTS :=
                    insert e s.settings.RENDERABLE_OBJECTS}
    | none => .error (.typeError ("unhashable type: '" ++ pyTypeName v ++ "'"), s)

/-- The pandas options that mirror a given configuration. -/
def mirrorPandas (stg : Settings) : PandasOptions :=
  ⟨.vInt stg.DISPLAY_MAX_ROWS, .vInt stg.DISPLAY_MAX_COLUMNS, .vBool stg.HTML_TABLE_SCHEMA⟩

/-- The one formatter-registry call performed for each mode. -/
def modeAction : DXDisplayMode → ExtAction
  | .enhanced => .register
  | .simple => .deregister
  | .plain => .reset

/-- The state produced by re-applying the snapshot `stg` through
the Option Setter starting from current state `s`. -/
def restoredState (stg : Settings) (s : State) : State :=
  ⟨stg, mirrorPandas stg, .vInt stg.LOG_LEVEL, s.actions ++ [modeAction stg.DISPLAY_MODE]⟩

theorem setOption_LOG_LEVEL (n : Int) (s : State) :
    setOption "LOG_LEVEL" (.vInt n) s =
      .ok {s with settings.LOG_LEVEL := n, dxLogLevel := .vInt n} := rfl

theorem setOption_DISPLAY_MAX_ROWS (n : Int) (h : 0 ≤ n) (s : State) :
    setOption "DISPLAY_MAX_ROWS" (.vInt n) s =
      .ok {s with settings.DISPLAY_MAX_ROWS := n, pandas.max_rows := .vInt n} := by
  simp [setOption, settings_setattr, pyLtZero, pandas_set_option, coerceInt,
    not_lt.mpr h, h]
  rfl

theorem setOption_MEDIA_TYPE (x : String) (s : State) :
    setOption "MEDIA_TYPE" (.vStr x) s =
      .ok {s with settings.MEDIA_TYPE := x} := rfl

theorem setOption_DISPLAY_MODE (m : DXDisplayMode) (s : State) :
    setOption "DISPLAY_MODE" (.vMode m) s =
      .ok {s with settings.DISPLAY_MODE := m,
                  actions := s.actions ++ [modeAction m]} := by
  cases m <;> rfl

theorem setOption_DISPLAY_MAX_COLUMNS (n : Int) (h : 0 ≤ n) (s : State) :
    setOption "DISPLAY_MAX_COLUMNS" (.vInt n) s =
      .ok {s with settings.DISPLAY_MAX_COLUMNS := n, pandas.max_columns := .vInt n} := by
  simp [setOption, settings_setattr, pyLtZero, pandas_set_option, coerceInt,
    not_lt.mpr h, h]
  rfl

theorem setOption_HTML_TABLE_SCHEMA (b : Bool) (s : State) :
    setOption "HTML_TABLE_SCHEMA" (.vBool b) s =
      .ok {s with settings.HTML_TABLE_SCHEMA := b, pandas.table_schema := .vBool b} := rfl

theorem setOption_MAX_RENDER_SIZE_BYTES (n : Int) (s : State) :
    setOption "MAX_RENDER_SIZE_BYTES" (.vInt n) s =
      .ok {s with settings.MAX_RENDER_SIZE_BYTES := n} := rfl

theorem validate_core_self (xs : Finset RElem) (h : ∀ e ∈ xs, resolveElem e = .ok e) :
    validate_renderables_core xs = .ok xs := by
  unfold validate_renderables_core
  have hfilter : (xs.filter fun e => ¬ (resolveElem e).isOk) = ∅ := by
    apply Finset.filter_eq_empty_iff.mpr
    intro e he
    simp [h e he, Except.isOk, Except.toBool]
  have himg : xs.image resolvedOf = xs := by
    have : ∀ e ∈ xs, resolvedOf e = id e := by
      intro e he
      simp [resolvedOf, h e he]
    rw [Finset.image_congr this, Finset.image_id]
  simp only [hfilter, Finset.image_empty]
  rw [dif_neg (by simp)]
  rw [himg]

theorem isType_self_resolving {e : RElem} (h : RElem.isType e = true) :
    resolveElem e = .ok e := by
  cases e <;> simp_all [RElem.isType, resolveElem]

theorem setOption_RENDERABLE_OBJECTS (xs : Finset RElem)
    (h : ∀ e ∈ xs, RElem.isType e = true) (s : State) :
    setOption "RENDERABLE_OBJECTS" (.vSet xs) s =
      .ok {s with settings.RENDERABLE_OBJECTS := xs} := by
  have hself : ∀ e ∈ xs, resolveElem e = .ok e :=
    fun e he => isType_self_resolving (h e he)
  have hpf : parseField (pyUpper "RENDERABLE_OBJECTS") = some FieldKey.RENDERABLE_OBJECTS := rfl
  have hval : validate_renderables (.vSet xs) = .ok xs := by
    simp only [validate_renderables]
    exact validate_core_self xs hself
  simp only [setOption, hpf, settings_setattr, hval, if_pos h]
  rfl

theorem setOption_SAMPLING_FACTOR (q : ℚ) (s : State) :
    setOption "SAMPLING_FACTOR" (.vFloat q) s =
      .ok {s with settings.SAMPLING_FACTOR := q} := rfl

theorem setOption_SAMPLING_METHOD (m : DXSamplingMethod) (s : State) :
    setOption "SAMPLING_METHOD" (.vSampling m) s =
      .ok {s with settings.SAMPLING_METHOD := m} := rfl

theorem setOption_COLUMN_SAMPLING_METHOD (m : DXSamplingMethod) (s : State) :
    setOption "COLUMN_SAMPLING_METHOD" (.vSampling m) s =
      .ok {s with settings.COLUMN_SAMPLING_METHOD := m} := rfl

theorem setOption_ROW_SAMPLING_METHOD (m : DXSamplingMethod) (s : State) :
    setOption "ROW_SAMPLING_METHOD" (.vSampling m) s =
      .ok {s with settings.ROW_SAMPLING_METHOD := m} := rfl

theorem setOption_RANDOM_STATE (n : Int) (s : State) :
    setOption "RANDOM_STATE" (.vInt n) s =
      .ok {s with settings.RANDOM_STATE := n} := rfl

theorem setOption_RESET_INDEX_VALUES (b : Bool) (s : State) :
    setOption "RESET_INDEX_VALUES" (.vBool b) s =
      .ok {s with settings.RESET_INDEX_VALUES := b} := rfl

theorem setOption_FLATTEN_INDEX_VALUES (b : Bool) (s : State) :
    setOption "FLATTEN_INDEX_VALUES" (.vBool b) s =
      .ok {s with settings.FLATTEN_INDEX_VALUES := b} := rfl

theorem setOption_FLATTEN_COLUMN_VALUES (b : Bool) (s : State) :
    setOption "FLATTEN_COLUMN_VALUES" (.vBool b) s =
      .ok {s with settings.FLATTEN_COLUMN_VALUES := b} := rfl

theorem setOption_STRINGIFY_INDEX_VALUES (b : Bool) (s : State) :
    setOption "STRINGIFY_INDEX_VALUES" (.vBool b) s =
      .ok {s with settings.STRINGIFY_INDEX_VALUES := b} := rfl

theorem setOption_STRINGIFY_COLUMN_VALUES (b : Bool) (s : State) :
    setOption "STRINGIFY_COLUMN_VALUES" (.vBool b) s =
      .ok {s with settings.STRINGIFY_COLUMN_VALUES := b} := rfl

theorem setOption_DATETIME_STRING_FORMAT (x : String) (s : State) :
    setOption "DATETIME_STRING_FORMAT" (.vStr x) s =
      .ok {s with settings.DATETIME_STRING_FORMAT := x} := rfl

theorem setOption_ENABLE_DATALINK (b : Bool) (s : State) :
    setOption "ENABLE_DATALINK" (.vBool b) s =
      .ok {s with settings.ENABLE_DATALINK := b} := rfl

/-- Re-applying a full (valid) settings snapshot through the Option
Setter succeeds from ANY current state and leaves exactly the
snapshot in the configuration, the snapshot's mirror in pandas, the
snapshot's log level in the logger, and one mode action at the end
of the trace. -/
theorem applyOptions_settingsDict (stg : Settings)
    (h1 : 0 ≤ stg.DISPLAY_MAX_ROWS) (h2 : 0 ≤ stg.DISPLAY_MAX_COLUMNS)
    (h3 : ∀ e ∈ stg.RENDERABLE_OBJECTS, RElem.isType e = true) (s : State) :
    applyOptions (settingsDict stg) s = .ok (restoredState stg s) := by
  simp only [settingsDict, applyOptions,
    setOption_LOG_LEVEL, setOption_DISPLAY_MAX_ROWS _ h1,
    setOption_DISPLAY_MAX_COLUMNS _ h2, setOption_HTML_TABLE_SCHEMA,
    setOption_MEDIA_TYPE, setOption_MAX_RENDER_SIZE_BYTES,
    setOption_RENDERABLE_OBJECTS _ h3, setOption_SAMPLING_FACTOR,
    setOption_DISPLAY_MODE, setOption_SAMPLING_METHOD,
    setOption_COLUMN_SAMPLING_METHOD, setOption_ROW_SAMPLING_METHOD,
    setOption_RANDOM_STATE, setOption_RESET_INDEX_VALUES,
    setOption_FLATTEN_INDEX_VALUES, setOption_FLATTEN_COLUMN_VALUES,
    setOption_STRINGIFY_INDEX_VALUES, setOption_STRINGIFY_COLUMN_VALUES,
    setOption_DATETIME_STRING_FORMAT, setOption_ENABLE_DATALINK]
  rfl

/-- The configuration states from which the restoration loop of the
scoped-override context is guaranteed to succeed: non-negative
row/column maximums (their validators re-check this) and a
renderable set holding only class objects — exactly the declared
`Set[type]` content.  Re-validating a set with any non-class element
(reachable only through the unvalidated `add_renderable_type`)
raises pydantic's "a class is expected" error, so such states are
outside the program's guaranteed-restore domain. -/
def ValidSettings (stg : Settings) : Prop :=
  0 ≤ stg.DISPLAY_MAX_ROWS ∧ 0 ≤ stg.DISPLAY_MAX_COLUMNS ∧
  ∀ e ∈ stg.RENDERABLE_OBJECTS, RElem.isType e = true

instance (stg : Settings) : Decidable (ValidSettings stg) := by
  unfold ValidSettings
  infer_instance

theorem applyOptions_snapshot (stg : Settings) (hv : ValidSettings stg) (s : State) :
    applyOptions (settingsDict stg) s = .ok (restoredState stg s) :=
  applyOptions_settingsDict stg hv.1 hv.2.1 hv.2.2 s

/-- The state carried by a result (Python state after the call,
whether or not it raised). -/
def stateOfRes : Except (PyErr × State) State → State
  | .ok st => st
  | .error (_, st) => st

theorem coerceMode_ok_truthy {v : PyVal} {m : DXDisplayMode}
    (h : coerceMode v = .ok m) : pyTruthy v = true := by
  cases v <;> simp_all [coerceMode, pyTruthy]
  case vStr str =>
    split_ifs at h <;> simp_all

/-- `set_display_mode` can only fail at the `DISPLAY_MODE`
assignment (enum coercion); the dispatch `else` branch is
unreachable, so a failing call leaves the state untouched and the
error is the pydantic enum-validation error. -/
theorem set_display_mode_error {v : PyVal} {s : State} {e : PyErr} {sF : State}
    (h : set_display_mode v s = .error (e, sF)) :
    sF = s ∧ e = .validationError modeEnumErrMsg := by
  unfold set_display_mode settings_setattr at h
  cases hcm : coerceMode v with
  | error m =>
    have hm : m = modeEnumErrMsg := by
      cases v
      all_goals simp_all [coerceMode]
      case vStr str =>
        split_ifs at hcm
        all_goals simp_all
    rw [hcm] at h
    simp at h
    subst hm
    exact ⟨h.2.symm, h.1.symm⟩
  | ok m =>
    rw [hcm] at h
    exfalso
    cases v with
    | vMode mm =>
      have hmm : mm = m := by simpa [coerceMode] using hcm
      subst hmm
      cases mm <;> simp_all [PyVal.pyStr, DXDisplayMode.value]
    | vStr str =>
      simp only [coerceMode] at hcm
      split_ifs at hcm with hp hs he
      · subst hp
        simp [PyVal.pyStr, DXDisplayMode.value] at h
      · subst hs
        simp [PyVal.pyStr, DXDisplayMode.value] at h
      · subst he
        simp [PyVal.pyStr, DXDisplayMode.value] at h
    | vInt n => simp [coerceMode] at hcm
    | vBool b => simp [coerceMode] at hcm
    | vFloat q => simp [coerceMode] at hcm
    | vNone => simp [coerceMode] at hcm
    | vType t => simp [coerceMode] at hcm
    | vSampling sm => simp [coerceMode] at hcm
    | vSet xs => simp [coerceMode] at hcm
    | vList xs => simp [coerceMode] at hcm

theorem runScope_restores {α : Type} (kw : List (String × PyVal)) (stg : Settings)
    (hv : ValidSettings stg)
    (body : State → Except (PyErr × State) (α × State)) (s : State) :
    (∀ a sF, runScope kw (settingsDict stg) body s = .ok (a, sF) →
        ∃ s2, sF = restoredState stg s2) ∧
    (∀ e sF, runScope kw (settingsDict stg) body s = .error (e, sF) →
        ∃ s2, sF = restoredState stg s2) := by
  constructor
  · intro a sF h
    unfold runScope at h
    split at h
    · rename_i e1 st1 heq
      rw [applyOptions_snapshot stg hv st1] at h
      simp at h
    · rename_i s1 heq
      split at h
      · rename_i e2 st2 heq2
        rw [applyOptions_snapshot stg hv st2] at h
        simp at h
      · rename_i a2 st2 heq2
        rw [applyOptions_snapshot stg hv st2] at h
        simp at h
        exact ⟨st2, h.2.symm⟩
  · intro e sF h
    unfold runScope at h
    split at h
    · rename_i e1 st1 heq
      rw [applyOptions_snapshot stg hv st1] at h
      simp at h
      exact ⟨st1, h.2.symm⟩
    · rename_i s1 heq
      split at h
      · rename_i e2 st2 heq2
        rw [applyOptions_snapshot stg hv st2] at h
        simp at h
        exact ⟨st2, h.2.symm⟩
      · rename_i a2 st2 heq2
        rw [applyOptions_snapshot stg hv st2] at h
        simp at h

/-- C1: at every exit of `settings_context` in which the scope was
entered (the result is `ok`, or an `error` after the restore ran),
the configuration equals the entry snapshot; the restoration
re-applies every snapshot field through the Option Setter, so the
pandas mirror, the log level and the display mode (one trailing
formatter action) are restored as well.  An error raised before the
`try` block (a failing mode override) leaves the state untouched, so
the configuration also equals the entry configuration on every
`error` exit. -/
theorem settings_context_restores {α : Type} (option_kwargs : List (String × PyVal))
    (body : State → Except (PyErr × State) (α × State)) (s : State)
    (hv : ValidSettings s.settings) :
    (∀ a sF, settings_context option_kwargs body s = .ok (a, sF) →
        sF.settings = s.settings ∧ sF.pandas = mirrorPandas s.settings ∧
        sF.dxLogLevel = .vInt s.settings.LOG_LEVEL ∧
        ∃ pre, sF.actions = pre ++ [modeAction s.settings.DISPLAY_MODE]) ∧
    (∀ e sF, settings_context option_kwargs body s = .error (e, sF) →
        sF.settings = s.settings) := by
  constructor
  · intro a sF h
    unfold settings_context at h
    split at h
    · rename_i dm hdm
      split at h
      · split at h
        · rename_i es hmode
          simp at h
        · rename_i s1 hmode
          obtain ⟨s2, rfl⟩ := (runScope_restores _ s.settings hv body s1).1 a sF h
          exact ⟨rfl, rfl, rfl, s2.actions, rfl⟩
      · obtain ⟨s2, rfl⟩ := (runScope_restores _ s.settings hv body s).1 a sF h
        exact ⟨rfl, rfl, rfl, s2.actions, rfl⟩
    · rename_i hdm
      obtain ⟨s2, rfl⟩ := (runScope_restores _ s.settings hv body s).1 a sF h
      exact ⟨rfl, rfl, rfl, s2.actions, rfl⟩
  · intro e sF h
    unfold settings_context at h
    split at h
    · rename_i dm hdm
      split at h
      · split at h
        · rename_i es hmode
          obtain ⟨e1, st1⟩ := es
          simp at h
          obtain ⟨he, hst⟩ := h
          rw [← hst, (set_display_mode_error hmode).1]
        · rename_i s1 hmode
          obtain ⟨s2, rfl⟩ := (runScope_restores _ s.settings hv body s1).2 e sF h
          rfl
      · obtain ⟨s2, rfl⟩ := (runScope_restores _ s.settings hv body s).2 e sF h
        rfl
    · rename_i hdm
      obtain ⟨s2, rfl⟩ := (runScope_restores _ s.settings hv body s).2 e sF h
      rfl

/-- C1 witness: a concrete scope overriding `DISPLAY_MAX_ROWS` to 5
over the default state restores the configuration exactly. -/
theorem settings_context_restores_witness :
    ValidSettings initState.settings ∧
    ({initState with dxLogLevel := PyVal.vInt 30,
                     actions := [ExtAction.deregister]} : State).settings
      = initState.settings := by
  refine ⟨by decide, ?_⟩
  exact ((settings_context_restores [("display_max_rows", PyVal.vInt 5)]
      (fun st => .ok (st.settings.DISPLAY_MAX_ROWS, st)) initState (by decide)).1
      5 {initState with dxLogLevel := PyVal.vInt 30, actions := [ExtAction.deregister]}
      (by decide)).1

theorem setOption_key_congr (k1 k2 : String) (v : PyVal) (s : State)
    (h : pyUpper k1 = pyUpper k2) : setOption k1 v s = setOption k2 v s := by
  unfold setOption
  rw [h]

/-- C2: a negative value for the row / column maximum makes
`set_option` raise the validator's Invalid value error
(a pydantic `ValidationError`); the raise happens before the
validator's pandas push, so the whole state — stored field and
engine option included — is exactly the pre-call state. -/
theorem setOption_negative_rejected (v : Int) (hneg : v < 0) (s : State) :
    setOption "display_max_rows" (.vInt v) s =
      .error (.validationError "DISPLAY_MAX_ROWS must be >= 0", s) ∧
    setOption "display_max_columns" (.vInt v) s =
      .error (.validationError "DISPLAY_MAX_COLUMNS must be >= 0", s) := by
  have hd : pyLtZero (.vInt v) = .ok true := by
    simp [pyLtZero, hneg]
  constructor
  · rw [setOption_key_congr "display_max_rows" "DISPLAY_MAX_ROWS" _ _ (by decide)]
    have hpf : parseField (pyUpper "DISPLAY_MAX_ROWS") = some FieldKey.DISPLAY_MAX_ROWS := rfl
    simp only [setOption, hpf, settings_setattr, hd]
  · rw [setOption_key_congr "display_max_columns" "DISPLAY_MAX_COLUMNS" _ _ (by decide)]
    have hpf : parseField (pyUpper "DISPLAY_MAX_COLUMNS") = some FieldKey.DISPLAY_MAX_COLUMNS := rfl
    simp only [setOption, hpf, settings_setattr, hd]

/-- C2 witness at `-1`. -/
theorem setOption_negative_rejected_witness :
    setOption "display_max_rows" (.vInt (-1)) initState =
      .error (.validationError "DISPLAY_MAX_ROWS must be >= 0", initState) ∧
    setOption "display_max_columns" (.vInt (-1)) initState =
      .error (.validationError "DISPLAY_MAX_COLUMNS must be >= 0", initState) :=
  setOption_negative_rejected (-1) (by decide) initState

/-- C3: a name whose uppercase normalization is not a declared field
makes `set_option` raise the Unknown field `ValueError`, and the
carried state is exactly the pre-call state: no configuration field,
pandas option, display mode or log level changes. -/
theorem setOption_unknown_rejected (key : String) (v : PyVal) (s : State)
    (h : parseField (pyUpper key) = none) :
    setOption key v s =
      .error (.valueError ("`" ++ pyUpper key ++ "` is not a valid setting"), s) := by
  simp only [setOption, h]

/-- C3 witness at a concrete unknown name. -/
theorem setOption_unknown_rejected_witness :
    parseField (pyUpper "fake_key") = none ∧
    setOption "fake_key" (.vInt 1) initState =
      .error (.valueError ("`" ++ pyUpper "fake_key" ++ "` is not a valid setting"), initState) :=
  ⟨by decide, setOption_unknown_rejected "fake_key" (.vInt 1) initState (by decide)⟩

theorem coerceMode_ok_pyStr {v : PyVal} {m : DXDisplayMode}
    (h : coerceMode v = .ok m) : v.pyStr = m.value := by
  cases v with
  | vMode mm =>
    have hmm : mm = m := by simpa [coerceMode] using h
    subst hmm
    rfl
  | vStr str =>
    simp only [coerceMode] at h
    split_ifs at h with hp hs he
    · injection h with h2
      subst h2
      subst hp
      rfl
    · injection h with h2
      subst h2
      subst hs
      rfl
    · injection h with h2
      subst h2
      subst he
      rfl
  | vInt n => simp [coerceMode] at h
  | vBool b => simp [coerceMode] at h
  | vFloat q => simp [coerceMode] at h
  | vNone => simp [coerceMode] at h
  | vType t => simp [coerceMode] at h
  | vSampling sm => simp [coerceMode] at h
  | vSet xs => simp [coerceMode] at h
  | vList xs => simp [coerceMode] at h

/-- C4 (amended): for every value that coerces to a member of the
mode enumeration, `set_display_mode` stores the mode and performs
exactly one formatter-registry action — `register` for `enhanced`,
`deregister` for `simple`, `reset` for `plain` (`modeAction`);
for every value outside the enumeration it fails with the pydantic
enum-validation error raised by the `DISPLAY_MODE` assignment on
line 123 — not with the "unsupported display mode" `ValueError` of
the dead final `else` branch — and performs none of the three
actions (the carried state is the pre-call state). -/
theorem set_display_mode_dispatch :
    (∀ (v : PyVal) (m : DXDisplayMode) (s : State), coerceMode v = .ok m →
        set_display_mode v s =
          .ok {s with settings.DISPLAY_MODE := m,
                      actions := s.actions ++ [modeAction m]}) ∧
    (∀ (v : PyVal) (s : State), coerceMode v = .error modeEnumErrMsg →
        set_display_mode v s = .error (.validationError modeEnumErrMsg, s)) := by
  constructor
  · intro v m s hcm
    have hstr := coerceMode_ok_pyStr hcm
    simp only [set_display_mode, settings_setattr, hcm, hstr]
    cases m <;> rfl
  · intro v s h
    simp only [set_display_mode, settings_setattr, h]

/-- C4 witness: `enhanced` performs exactly the register action;
`"foo"` fails validation with the state untouched. -/
theorem set_display_mode_dispatch_witness :
    coerceMode (.vMode .enhanced) = .ok .enhanced ∧
    set_display_mode (.vMode .enhanced) initState =
      .ok {initState with settings.DISPLAY_MODE := .enhanced,
                          actions := [ExtAction.register]} ∧
    coerceMode (.vStr "foo") = .error modeEnumErrMsg ∧
    set_display_mode (.vStr "foo") initState =
      .error (.validationError modeEnumErrMsg, initState) := by
  refine ⟨by decide, ?_, by decide, ?_⟩
  · exact set_display_mode_dispatch.1 (.vMode .enhanced) .enhanced initState (by decide)
  · exact set_display_mode_dispatch.2 (.vStr "foo") initState (by decide)

/-- Whether a call result is a raised `ValueError` (the error class
of the "unsupported display mode" raise). -/
def isValueErrorRes : Except (PyErr × State) State → Bool
  | .error (.valueError _, _) => true
  | _ => false

/-- C4 counterexample: at the concrete invalid mode `"foo"`, the
call fails with the pydantic enum-validation error, not with any
`ValueError` — in particular not with the "unsupported display
mode" error the claim names. -/
theorem set_display_mode_unsupported_counterexample :
    set_display_mode (.vStr "foo") initState =
      .error (.validationError modeEnumErrMsg, initState) ∧
    isValueErrorRes (set_display_mode (.vStr "foo") initState) = false :=
  ⟨by decide, by decide⟩

/-- C5: for every `v ≥ 0`, setting the row / column maximum succeeds
and the new state is exactly the old one with the stored field AND
the mirrored pandas option both equal to `v`. -/
theorem setOption_nonnegative_mirrors (v : Int) (hv : 0 ≤ v) (s : State) :
    setOption "display_max_rows" (.vInt v) s =
      .ok {s with settings.DISPLAY_MAX_ROWS := v, pandas.max_rows := .vInt v} ∧
    setOption "display_max_columns" (.vInt v) s =
      .ok {s with settings.DISPLAY_MAX_COLUMNS := v, pandas.max_columns := .vInt v} := by
  constructor
  · rw [setOption_key_congr "display_max_rows" "DISPLAY_MAX_ROWS" _ _ (by decide)]
    exact setOption_DISPLAY_MAX_ROWS v hv s
  · rw [setOption_key_congr "display_max_columns" "DISPLAY_MAX_COLUMNS" _ _ (by decide)]
    exact setOption_DISPLAY_MAX_COLUMNS v hv s

/-- C5 witness at `v = 5`. -/
theorem setOption_nonnegative_mirrors_witness :
    setOption "display_max_rows" (.vInt 5) initState =
      .ok {initState with settings.DISPLAY_MAX_ROWS := 5, pandas.max_rows := .vInt 5} ∧
    setOption "display_max_columns" (.vInt 5) initState =
      .ok {initState with settings.DISPLAY_MAX_COLUMNS := 5, pandas.max_columns := .vInt 5} :=
  setOption_nonnegative_mirrors 5 (by decide) initState

/-- C8: `add_renderable_type` with a list of types leaves the
renderable-type field equal to the set union of the prior contents
and the list's elements; the result is a record update of
`RENDERABLE_OBJECTS` alone, so every other configuration field, the
pandas options, the logger and the action trace are unchanged. -/
theorem add_renderable_type_union (ts : List RType) (s : State) :
    add_renderable_type (.vList (ts.map .rtype)) s =
      .ok {s with settings.RENDERABLE_OBJECTS :=
                    s.settings.RENDERABLE_OBJECTS ∪ (ts.map RElem.rtype).toFinset} := rfl

theorem validate_core_ok (xs : Finset RElem)
    (h : ∀ e ∈ xs, (resolveElem e).isOk = true) :
    validate_renderables_core xs = .ok (xs.image resolvedOf) := by
  unfold validate_renderables_core
  have hfilter : (xs.filter fun e => ¬ (resolveElem e).isOk) = ∅ := by
    apply Finset.filter_eq_empty_iff.mpr
    intro e he
    simp [h e he]
  simp only [hfilter, Finset.image_empty]
  rw [dif_neg (by simp)]

/-- C9 (amended): on the Option Setter path, a SET input is
validated elementwise — elements already types are kept and known
type-name strings are resolved to type objects; pydantic's declared
`Set[type]` element validation then rejects any resolved element
that is not a class with "a class is expected"; an unresolvable
token raises a validation error naming it; and a bare
(comma-separated) string input fails with the unhashable `TypeError`
before any parsing, so it is never parsed into types. -/
theorem renderables_validation_amended :
    (∀ (s : State) (xs : Finset RElem), (∀ e ∈ xs, (resolveElem e).isOk = true) →
        (∀ e ∈ xs.image resolvedOf, RElem.isType e = true) →
        setOption "renderable_objects" (.vSet xs) s =
          .ok {s with settings.RENDERABLE_OBJECTS := xs.image resolvedOf}) ∧
    (∀ (s : State) (xs : Finset RElem), (∀ e ∈ xs, (resolveElem e).isOk = true) →
        ¬ (∀ e ∈ xs.image resolvedOf, RElem.isType e = true) →
        setOption "renderable_objects" (.vSet xs) s =
          .error (.validationError "a class is expected", s)) ∧
    (∀ nm t, evalName nm = some t → resolveElem (.rstr nm) = .ok (.rtype t)) ∧
    (∀ (s : State) (tok msg : String), pyEval tok = .error msg →
        setOption "renderable_objects" (.vSet {.rstr tok}) s =
          .error (.validationError
            ("can't evaluate " ++ tok ++ " type as renderable object: " ++ msg), s)) ∧
    (∀ (s : State) (str : String),
        setOption "renderable_objects" (.vStr str) s =
          .error (.validationError "unhashable type: 'list'", s)) := by
  have hpf : parseField (pyUpper "renderable_objects") = some FieldKey.RENDERABLE_OBJECTS := by
    decide
  refine ⟨?_, ?_, ?_, ?_, ?_⟩
  · intro s xs h hcls
    have hval : validate_renderables (.vSet xs) = .ok (xs.image resolvedOf) := by
      simp only [validate_renderables, validate_core_ok xs h]
    simp only [setOption, hpf, settings_setattr, hval, if_pos hcls]
    rfl
  · intro s xs h hncls
    have hval : validate_renderables (.vSet xs) = .ok (xs.image resolvedOf) := by
      simp only [validate_renderables, validate_core_ok xs h]
    simp only [setOption, hpf, settings_setattr, hval, if_neg hncls]
  · intro nm t h
    simp only [resolveElem, RElem.pyStr, pyEval, h]
  · intro s tok msg h
    have hres : resolveElem (.rstr tok) = .error msg := by
      simp only [resolveElem, RElem.pyStr, h]
    have hval : validate_renderables (.vSet {.rstr tok}) =
        .error ("can't evaluate " ++ tok ++ " type as renderable object: " ++ msg) := by
      have hp : ¬ (resolveElem (RElem.rstr tok)).isOk = true := by
        simp [hres, Except.isOk, Except.toBool]
      simp only [validate_renderables, validate_renderables_core]
      rw [Finset.filter_singleton, if_pos hp, Finset.image_singleton]
      rw [dif_pos (Finset.singleton_nonempty _)]
      simp [Finset.min'_singleton, resolveErrMsg, RElem.pyStr, hres]
    simp only [setOption, hpf, settings_setattr, hval]
  · intro s str
    simp only [setOption, hpf, settings_setattr, validate_renderables]

/-- C9 witness: the set with the token `"int"` and the type `str`
resolves to classes and is stored resolved; the set with the token
`"5"` resolves elementwise (to the int `5`) but fails the `Set[type]`
class check with "a class is expected"; the unknown token `"foo"` is
named in its error; the bare string `"int, str"` hits the unhashable
`TypeError`. -/
theorem renderables_validation_amended_witness :
    (∀ e ∈ ({.rstr "int", .rtype .tStr} : Finset RElem), (resolveElem e).isOk = true) ∧
    (∀ e ∈ ({.rstr "int", .rtype .tStr} : Finset RElem).image resolvedOf,
        RElem.isType e = true) ∧
    setOption "renderable_objects" (.vSet {.rstr "int", .rtype .tStr}) initState =
      .ok {initState with settings.RENDERABLE_OBJECTS :=
            ({.rstr "int", .rtype .tStr} : Finset RElem).image resolvedOf} ∧
    (∀ e ∈ ({.rstr "5"} : Finset RElem), (resolveElem e).isOk = true) ∧
    ¬ (∀ e ∈ ({.rstr "5"} : Finset RElem).image resolvedOf, RElem.isType e = true) ∧
    setOption "renderable_objects" (.vSet {.rstr "5"}) initState =
      .error (.validationError "a class is expected", initState) ∧
    evalName "int" = some .tInt ∧
    resolveElem (.rstr "int") = .ok (.rtype .tInt) ∧
    pyEval "foo" = .error "name 'foo' is not defined" ∧
    setOption "renderable_objects" (.vSet {.rstr "foo"}) initState =
      .error (.validationError
        ("can't evaluate " ++ "foo" ++ " type as renderable object: " ++
          "name 'foo' is not defined"), initState) ∧
    setOption "renderable_objects" (.vStr "int, str") initState =
      .error (.validationError "unhashable type: 'list'", initState) := by
  refine ⟨by decide, by decide, ?_, by decide, by decide, ?_, by decide, ?_, by decide, ?_, ?_⟩
  · exact renderables_validation_amended.1 initState _ (by decide) (by decide)
  · exact renderables_validation_amended.2.1 initState _ (by decide) (by decide)
  · exact renderables_validation_amended.2.2.1 "int" .tInt (by decide)
  · exact renderables_validation_amended.2.2.2.1 initState "foo"
      "name 'foo' is not defined" (by decide)
  · exact renderables_validation_amended.2.2.2.2 initState "int, str"

/-- Whether a set element is a raw (unresolved) string. -/
def RElem.isRawString : RElem → Bool
  | .rstr _ => true
  | _ => false

/-- Whether the renderable-type field holds any raw string. -/
def hasRawString (stg : Settings) : Bool :=
  decide (∃ e ∈ stg.RENDERABLE_OBJECTS, RElem.isRawString e = true)

/-- C9 counterexample: `add_renderable_type` bypasses validation
(in-place `set.update`), so passing the string `"foo"` to this
public API operation stores the raw string itself in the
renderable-type field — the field does not hold only resolved
types afterwards. -/
theorem add_renderable_type_raw_string_counterexample :
    add_renderable_type (.vStr "foo") initState =
      .ok {initState with settings.RENDERABLE_OBJECTS := {.rstr "foo"}} ∧
    hasRawString
      ({initState with settings.RENDERABLE_OBJECTS := {.rstr "foo"}} : State).settings = true :=
  ⟨by decide, by decide⟩

theorem pandas_set_option_frame {k : PdKey} {v : PyVal} {s s1 : State}
    (h : pandas_set_option k v s = .ok s1) :
    s1.settings = s.settings ∧ s1.actions = s.actions ∧ s1.dxLogLevel = s.dxLogLevel := by
  cases k
  all_goals unfold pandas_set_option at h
  all_goals repeat' split at h
  all_goals simp_all
  all_goals (cases h; exact ⟨rfl, rfl, rfl⟩)

theorem setattr_actions (fk : FieldKey) (v : PyVal) (s : State) :
    (stateOfRes (settings_setattr fk v s)).actions = s.actions := by
  cases fk
  all_goals simp only [settings_setattr]
  all_goals repeat' split
  all_goals first
    | rfl
    | (simp only [stateOfRes]
       exact (pandas_set_option_frame (by assumption)).2.1)

theorem setattr_keeps_mode (fk : FieldKey) (v : PyVal) (s : State)
    (hne : fk ≠ FieldKey.DISPLAY_MODE) :
    (stateOfRes (settings_setattr fk v s)).settings.DISPLAY_MODE
      = s.settings.DISPLAY_MODE := by
  cases fk
  case DISPLAY_MODE => exact absurd rfl hne
  all_goals simp only [settings_setattr]
  all_goals repeat' split
  all_goals first
    | rfl
    | (simp only [stateOfRes]
       exact congrArg Settings.DISPLAY_MODE (pandas_set_option_frame (by assumption)).1)

theorem parseField_eq_DM {k : String} (h : parseField k = some FieldKey.DISPLAY_MODE) :
    k = "DISPLAY_MODE" := by
  unfold parseField at h
  split at h
  all_goals simp_all

/-- A `set_option` call on a key other than `DISPLAY_MODE` never
calls into the formatter registry and never moves the display mode:
the Mode Controller path is guarded by the normalized key. -/
theorem setOption_frame (k : String) (v : PyVal) (s : State)
    (hk : parseField (pyUpper k) ≠ some FieldKey.DISPLAY_MODE) :
    (stateOfRes (setOption k v s)).actions = s.actions ∧
    (stateOfRes (setOption k v s)).settings.DISPLAY_MODE
      = s.settings.DISPLAY_MODE := by
  unfold setOption
  split
  · exact ⟨rfl, rfl⟩
  · rename_i fk hpf
    have hfk : fk ≠ FieldKey.DISPLAY_MODE := fun h => hk (h ▸ hpf)
    split
    · rename_i es hsa
      have h1 := setattr_actions fk v s
      have h2 := setattr_keeps_mode fk v s hfk
      rw [hsa] at h1 h2
      exact ⟨h1, h2⟩
    · rename_i s1 hsa
      have h1 := setattr_actions fk v s
      have h2 := setattr_keeps_mode fk v s hfk
      rw [hsa] at h1 h2
      simp only [stateOfRes] at h1 h2
      split
      · exact ⟨h1, h2⟩
      · rename_i s2 hpd
        have hfr : s2.settings = s1.settings ∧ s2.actions = s1.actions := by
          cases fk
          all_goals simp only at hpd
          all_goals first
            | (cases hpd
               exact ⟨rfl, rfl⟩)
            | (exact ⟨(pandas_set_option_frame hpd).1,
                (pandas_set_option_frame hpd).2.1⟩)
        rw [if_neg hfk]
        constructor
        · show (stateOfRes (Except.ok
              (if fk = FieldKey.LOG_LEVEL then set_log_level v s2 else s2))).actions
            = s.actions
          split
          · simp [stateOfRes, set_log_level, hfr.2, h1]
          · simp [stateOfRes, hfr.2, h1]
        · show (stateOfRes (Except.ok
              (if fk = FieldKey.LOG_LEVEL then set_log_level v s2 else s2))).settings.DISPLAY_MODE
            = s.settings.DISPLAY_MODE
          split
          · simp [stateOfRes, set_log_level, hfr.1, h2]
          · simp [stateOfRes, hfr.1, h2]

/-- Applying a batch of overrides none of whose keys normalizes to
`DISPLAY_MODE` preserves the action trace and the display mode,
whether or not the batch raises part-way. -/
theorem applyOptions_frame (kw : List (String × PyVal)) (s : State)
    (hkw : ∀ p ∈ kw, parseField (pyUpper p.1) ≠ some FieldKey.DISPLAY_MODE) :
    (stateOfRes (applyOptions kw s)).actions = s.actions ∧
    (stateOfRes (applyOptions kw s)).settings.DISPLAY_MODE
      = s.settings.DISPLAY_MODE := by
  induction kw generalizing s with
  | nil => exact ⟨rfl, rfl⟩
  | cons p rest ih =>
    obtain ⟨k, v⟩ := p
    have hk := hkw (k, v) (by simp)
    unfold applyOptions
    split
    · rename_i es hso
      have h := setOption_frame k v s hk
      rw [hso] at h
      exact h
    · rename_i s1 hso
      have h := setOption_frame k v s hk
      rw [hso] at h
      simp only [stateOfRes] at h
      have h2 := ih s1 (fun p hp => hkw p (by simp [hp]))
      exact ⟨h2.1.trans h.1, h2.2.trans h.2⟩

theorem pyDictInsert_mem {d : List (String × PyVal)} {k : String} {v : PyVal}
    {p : String × PyVal} (h : p ∈ pyDictInsert d k v) : p.1 = k ∨ p ∈ d := by
  unfold pyDictInsert at h
  split at h
  · obtain ⟨kv, hkv, heq⟩ := List.mem_map.mp h
    by_cases hk : kv.1 = k
    · rw [if_pos hk] at heq
      left
      rw [← heq]
    · rw [if_neg hk] at heq
      right
      rw [← heq]
      exact hkv
  · rcases List.mem_append.mp h with h2 | h2
    · right
      exact h2
    · left
      simp at h2
      rw [h2]

theorem pyDictUpper_mem_aux (kw : List (String × PyVal)) :
    ∀ (d : List (String × PyVal)) (p : String × PyVal),
      p ∈ kw.foldl (fun d kv => pyDictInsert d (pyUpper kv.1) kv.2) d →
      p ∈ d ∨ ∃ q ∈ kw, p.1 = pyUpper q.1 := by
  induction kw with
  | nil =>
    intro d p h
    exact .inl h
  | cons q rest ih =>
    intro d p h
    simp only [List.foldl_cons] at h
    rcases ih _ p h with h2 | ⟨q2, hq2, hp⟩
    · rcases pyDictInsert_mem h2 with h3 | h3
      · right
        exact ⟨q, by simp, h3⟩
      · left
        exact h3
    · right
      exact ⟨q2, by simp [hq2], hp⟩

theorem pyDictUpper_mem {kw : List (String × PyVal)} {p : String × PyVal}
    (h : p ∈ pyDictUpper kw) : ∃ q ∈ kw, p.1 = pyUpper q.1 := by
  rcases pyDictUpper_mem_aux kw [] p h with h2 | h2
  · simp at h2
  · exact h2

theorem pyDictUpper_key_upper {kw : List (String × PyVal)} {p : String × PyVal}
    (h : p ∈ pyDictUpper kw) : pyUpper p.1 = p.1 := by
  obtain ⟨q, hq, hp⟩ := pyDictUpper_mem h
  rw [hp, pyUpper_idem]

theorem popKey_no_DM {kw : List (String × PyVal)} {p : String × PyVal}
    (hp : p ∈ popKey (pyDictUpper kw) "DISPLAY_MODE") :
    parseField (pyUpper p.1) ≠ some FieldKey.DISPLAY_MODE := by
  intro hpf
  have h1 : p ∈ pyDictUpper kw := List.mem_of_mem_filter hp
  have h2 : pyUpper p.1 = p.1 := pyDictUpper_key_upper h1
  have h3 : pyUpper p.1 = "DISPLAY_MODE" := parseField_eq_DM hpf
  have h4 : p.1 = "DISPLAY_MODE" := by rw [← h2, h3]
  have h5 := List.of_mem_filter hp
  simp at h5
  exact h5 h4

theorem pyLookup_cons_self (k : String) (v : PyVal) (d : List (String × PyVal)) :
    pyLookup ((k, v) :: d) k = some v := by
  unfold pyLookup
  simp [List.find?_cons]

theorem popKey_cons_self (k : String) (v : PyVal) (d : List (String × PyVal))
    (hd : ∀ p ∈ d, p.1 ≠ k) : popKey ((k, v) :: d) k = d := by
  unfold popKey
  rw [List.filter_cons]
  simp only [decide_not]
  rw [if_neg (by simp)]
  apply List.filter_eq_self.mpr
  intro p hp
  simp [hd p hp]

/-- C10: a falsy display-mode override (e.g. `None`, `""`, `0`) is
popped from the batch but never applied and raises nothing: the
scope proceeds as the try/finally block over the remaining
overrides, and since the remaining batch has no display-mode key,
the display mode seen inside the scope (and the action trace) is the
pre-entry one. -/
theorem settings_context_falsy_mode {α : Type} (option_kwargs : List (String × PyVal))
    (body : State → Except (PyErr × State) (α × State)) (s : State) (v : PyVal)
    (hk : pyLookup (pyDictUpper option_kwargs) "DISPLAY_MODE" = some v)
    (hfalsy : pyTruthy v = false) :
    settings_context option_kwargs body s =
      runScope (popKey (pyDictUpper option_kwargs) "DISPLAY_MODE")
        (settingsDict s.settings) body s ∧
    (∀ s1 r, applyOptions (popKey (pyDictUpper option_kwargs) "DISPLAY_MODE") s1 = .ok r →
        r.settings.DISPLAY_MODE = s1.settings.DISPLAY_MODE ∧ r.actions = s1.actions) := by
  constructor
  · unfold settings_context
    rw [hk]
    simp [hfalsy]
  · intro s1 r hr
    have h := applyOptions_frame (popKey (pyDictUpper option_kwargs) "DISPLAY_MODE") s1
      (fun p hp => popKey_no_DM hp)
    rw [hr] at h
    simp only [stateOfRes] at h
    exact ⟨h.2, h.1⟩

/-- C10 witness: `{"display_mode": "", "display_max_rows": 5}` —
the falsy mode override is dropped silently; the rows override still
applies and the mode inside the scope is the pre-entry `simple`. -/
theorem settings_context_falsy_mode_witness :
    pyLookup (pyDictUpper [("display_mode", PyVal.vStr ""),
        ("display_max_rows", PyVal.vInt 5)]) "DISPLAY_MODE" = some (PyVal.vStr "") ∧
    pyTruthy (PyVal.vStr "") = false ∧
    settings_context [("display_mode", PyVal.vStr ""), ("display_max_rows", PyVal.vInt 5)]
      (fun st => Except.ok (st, st)) initState =
      runScope (popKey (pyDictUpper [("display_mode", PyVal.vStr ""),
          ("display_max_rows", PyVal.vInt 5)]) "DISPLAY_MODE")
        (settingsDict initState.settings) (fun st => Except.ok (st, st)) initState ∧
    ({initState with settings.DISPLAY_MAX_ROWS := 5, pandas.max_rows := PyVal.vInt 5} : State).settings.DISPLAY_MODE
      = initState.settings.DISPLAY_MODE := by
  refine ⟨by decide, by decide, ?_, ?_⟩
  · exact (settings_context_falsy_mode
      [("display_mode", PyVal.vStr ""), ("display_max_rows", PyVal.vInt 5)]
      (fun st => Except.ok (st, st)) initState (PyVal.vStr "")
      (by decide) (by decide)).1
  · exact ((settings_context_falsy_mode
      [("display_mode", PyVal.vStr ""), ("display_max_rows", PyVal.vInt 5)]
      (fun st => Except.ok (st, st)) initState (PyVal.vStr "")
      (by decide) (by decide)).2 initState
      {initState with settings.DISPLAY_MAX_ROWS := 5, pandas.max_rows := PyVal.vInt 5}
      (by decide)).1

/-- C6 (amended): for every override mapping that contains a
display-mode key (under any casing, at any position) bound to a
TRUTHY value, the scope applies that mode override first via the
Mode Controller and removes it from the normalized batch; the
remaining overrides are then applied via the Option Setter in the
order supplied, and — the remaining batch having no display-mode
key — that loop performs no formatter-registry action and never
moves the display mode, so the mode is not applied a second time.
(A falsy mode value is removed but never applied.) -/
theorem settings_context_mode_first {α : Type} (option_kwargs : List (String × PyVal))
    (body : State → Except (PyErr × State) (α × State)) (s : State) (v : PyVal)
    (hk : pyLookup (pyDictUpper option_kwargs) "DISPLAY_MODE" = some v)
    (htr : pyTruthy v = true) :
    settings_context option_kwargs body s =
      (match set_display_mode v s with
       | .error es => .error es
       | .ok s1 =>
         runScope (popKey (pyDictUpper option_kwargs) "DISPLAY_MODE")
           (settingsDict s.settings) body s1) ∧
    (∀ s1, (stateOfRes (applyOptions
          (popKey (pyDictUpper option_kwargs) "DISPLAY_MODE") s1)).actions = s1.actions ∧
        (stateOfRes (applyOptions
          (popKey (pyDictUpper option_kwargs) "DISPLAY_MODE") s1)).settings.DISPLAY_MODE
          = s1.settings.DISPLAY_MODE) := by
  constructor
  · unfold settings_context
    rw [hk]
    simp [htr]
  · intro s1
    exact applyOptions_frame (popKey (pyDictUpper option_kwargs) "DISPLAY_MODE") s1
      (fun p hp => popKey_no_DM hp)

/-- C6 witness: `{"display_max_rows": 3, "Display_Mode": enhanced}`
— the mode key is mixed-case and NOT the first entry, yet the
pipeline equation routes it through the Mode Controller first, and
the mode-free remainder appends no formatter action and keeps the
display mode. -/
theorem settings_context_mode_first_witness :
    pyLookup (pyDictUpper [("display_max_rows", PyVal.vInt 3),
        ("Display_Mode", PyVal.vMode .enhanced)]) "DISPLAY_MODE"
      = some (PyVal.vMode .enhanced) ∧
    pyTruthy (PyVal.vMode .enhanced) = true ∧
    settings_context [("display_max_rows", PyVal.vInt 3),
        ("Display_Mode", PyVal.vMode .enhanced)]
      (fun st => Except.ok (st, st)) initState =
      (match set_display_mode (PyVal.vMode .enhanced) initState with
       | .error es => .error es
       | .ok s1 =>
         runScope (popKey (pyDictUpper [("display_max_rows", PyVal.vInt 3),
             ("Display_Mode", PyVal.vMode .enhanced)]) "DISPLAY_MODE")
           (settingsDict initState.settings) (fun st => Except.ok (st, st)) s1) ∧
    (stateOfRes (applyOptions (popKey (pyDictUpper [("display_max_rows", PyVal.vInt 3),
        ("Display_Mode", PyVal.vMode .enhanced)]) "DISPLAY_MODE") initState)).actions
      = initState.actions ∧
    (stateOfRes (applyOptions (popKey (pyDictUpper [("display_max_rows", PyVal.vInt 3),
        ("Display_Mode", PyVal.vMode .enhanced)]) "DISPLAY_MODE")
        initState)).settings.DISPLAY_MODE = initState.settings.DISPLAY_MODE := by
  refine ⟨by decide, by decide, ?_, ?_, ?_⟩
  · exact (settings_context_mode_first
      [("display_max_rows", PyVal.vInt 3), ("Display_Mode", PyVal.vMode .enhanced)]
      (fun st => Except.ok (st, st)) initState (PyVal.vMode .enhanced)
      (by decide) (by decide)).1
  · exact ((settings_context_mode_first
      [("display_max_rows", PyVal.vInt 3), ("Display_Mode", PyVal.vMode .enhanced)]
      (fun st => Except.ok (st, st)) initState (PyVal.vMode .enhanced)
      (by decide) (by decide)).2 initState).1
  · exact ((settings_context_mode_first
      [("display_max_rows", PyVal.vInt 3), ("Display_Mode", PyVal.vMode .enhanced)]
      (fun st => Except.ok (st, st)) initState (PyVal.vMode .enhanced)
      (by decide) (by decide)).2 initState).2

/-- C6 counterexample: with the display-mode key bound to the falsy
`None`, the key is removed from the batch but the mode override is
NOT applied via the Mode Controller: no error is raised, the body
observes the pre-entry state itself — display mode still `simple`,
no formatter-registry action — refuting the claim that the presence
of a display-mode key always routes through the Mode Controller
first.  (The trailing `deregister` in the final state is the
restoration re-applying the snapshot's `simple` mode on exit.) -/
theorem settings_context_mode_first_counterexample :
    settings_context [("display_mode", PyVal.vNone)]
      (fun st => Except.ok (st, st)) initState =
      .ok (initState, {initState with dxLogLevel := PyVal.vInt 30,
                                      actions := [ExtAction.deregister]}) :=
  by decide

/-- The canonical (declared) name of each field. -/
def fieldName : FieldKey → String
  | .LOG_LEVEL => "LOG_LEVEL"
  | .DISPLAY_MAX_ROWS => "DISPLAY_MAX_ROWS"
  | .DISPLAY_MAX_COLUMNS => "DISPLAY_MAX_COLUMNS"
  | .HTML_TABLE_SCHEMA => "HTML_TABLE_SCHEMA"
  | .MEDIA_TYPE => "MEDIA_TYPE"
  | .MAX_RENDER_SIZE_BYTES => "MAX_RENDER_SIZE_BYTES"
  | .RENDERABLE_OBJECTS => "RENDERABLE_OBJECTS"
  | .SAMPLING_FACTOR => "SAMPLING_FACTOR"
  | .DISPLAY_MODE => "DISPLAY_MODE"
  | .SAMPLING_METHOD => "SAMPLING_METHOD"
  | .COLUMN_SAMPLING_METHOD => "COLUMN_SAMPLING_METHOD"
  | .ROW_SAMPLING_METHOD => "ROW_SAMPLING_METHOD"
  | .RANDOM_STATE => "RANDOM_STATE"
  | .RESET_INDEX_VALUES => "RESET_INDEX_VALUES"
  | .FLATTEN_INDEX_VALUES => "FLATTEN_INDEX_VALUES"
  | .FLATTEN_COLUMN_VALUES => "FLATTEN_COLUMN_VALUES"
  | .STRINGIFY_INDEX_VALUES => "STRINGIFY_INDEX_VALUES"
  | .STRINGIFY_COLUMN_VALUES => "STRINGIFY_COLUMN_VALUES"
  | .DATETIME_STRING_FORMAT => "DATETIME_STRING_FORMAT"
  | .ENABLE_DATALINK => "ENABLE_DATALINK"

theorem pyUpper_fieldName (fk : FieldKey) : pyUpper (fieldName fk) = fieldName fk := by
  cases fk <;> rfl

theorem fieldName_DM_iff (fk : FieldKey) :
    fieldName fk = "DISPLAY_MODE" ↔ fk = FieldKey.DISPLAY_MODE := by
  cases fk <;> simp [fieldName]

theorem set_display_mode_ok_truthy {v : PyVal} {s s1 : State}
    (h : set_display_mode v s = .ok s1) : pyTruthy v = true := by
  unfold set_display_mode at h
  cases hsa : settings_setattr FieldKey.DISPLAY_MODE v s with
  | error es =>
    rw [hsa] at h
    simp at h
  | ok s2 =>
    cases hcm : coerceMode v with
    | error m => simp [settings_setattr, hcm] at hsa
    | ok m => exact coerceMode_ok_truthy hcm

theorem setOption_DM_ok {k : String} {v : PyVal} {s s1 : State}
    (hk : pyUpper k = "DISPLAY_MODE") (h : setOption k v s = .ok s1) :
    set_display_mode v s = .ok s1 := by
  have hpf : parseField (pyUpper k) = some FieldKey.DISPLAY_MODE := by
    rw [hk]
    rfl
  simp only [setOption, hpf] at h
  cases hsa : settings_setattr FieldKey.DISPLAY_MODE v s with
  | error es =>
    rw [hsa] at h
    simp at h
  | ok s2 =>
    rw [hsa] at h
    simp only [if_true,
      if_neg (by decide : ¬ (FieldKey.DISPLAY_MODE = FieldKey.LOG_LEVEL))] at h
    cases hcm : coerceMode v with
    | error m => simp [settings_setattr, hcm] at hsa
    | ok m =>
      have hs2 : s2 = {s with settings.DISPLAY_MODE := m} := by
        have h3 := hsa
        simp only [settings_setattr, hcm] at h3
        exact ((Except.ok.injEq _ _).mp h3).symm
      have hsa2 : settings_setattr FieldKey.DISPLAY_MODE v s2 = .ok s2 := by
        simp only [settings_setattr, hcm, hs2]
      have hkey : set_display_mode v s = set_display_mode v s2 := by
        unfold set_display_mode
        rw [hsa, hsa2]
      rw [hkey]
      cases hdm : set_display_mode v s2 with
      | error es2 =>
        rw [hdm] at h
        simp at h
      | ok s3 =>
        rw [hdm] at h
        simp at h
        rw [h]

theorem runScope_nil {α : Type} (orig : List (String × PyVal))
    (body : State → Except (PyErr × State) (α × State)) (s0 : State) :
    runScope ([] : List (String × PyVal)) orig body s0 =
      match body s0 with
      | .error (e, s2) =>
        (match applyOptions orig s2 with
         | .error es => .error es
         | .ok s3 => .error (e, s3))
      | .ok (a, s2) =>
        (match applyOptions orig s2 with
         | .error es => .error es
         | .ok s3 => .ok (a, s3)) := by
  unfold runScope
  rfl

theorem runScope_single {α : Type} (k : String) (v : PyVal)
    (orig : List (String × PyVal))
    (body : State → Except (PyErr × State) (α × State)) (s0 s' : State)
    (h : setOption k v s0 = .ok s') :
    runScope [(k, v)] orig body s0 = runScope [] orig body s' := by
  have happ : applyOptions [(k, v)] s0 = applyOptions [] s' := by
    unfold applyOptions
    rw [h]
    rfl
  unfold runScope
  rw [happ]

theorem runScope_nil_restore {α : Type} (stg : Settings) (hv : ValidSettings stg)
    (body : State → Except (PyErr × State) (α × State)) (s0 : State) :
    runScope ([] : List (String × PyVal)) (settingsDict stg) body s0 =
      match body s0 with
      | .error (e, s2) => .error (e, restoredState stg s2)
      | .ok (a, s2) => .ok (a, restoredState stg s2) := by
  rw [runScope_nil]
  cases hb : body s0 with
  | error es =>
    obtain ⟨e2, s2⟩ := es
    simp only [applyOptions_snapshot stg hv]
  | ok r =>
    obtain ⟨a2, s2⟩ := r
    simp only [applyOptions_snapshot stg hv]

/-- A scope with a single override `(field, v)` whose application
succeeds with state `s'` runs its body at `s'` and restores the
entry snapshot on both exits.  (A `DISPLAY_MODE` override is routed
through the Mode Controller, any other field through the Option
Setter; both land in the same state.) -/
theorem settings_context_single {α : Type} (fk : FieldKey) (v : PyVal) {s s' : State}
    (hvst : ValidSettings s.settings)
    (h : setOption (fieldName fk) v s = .ok s')
    (body : State → Except (PyErr × State) (α × State)) :
    settings_context [(fieldName fk, v)] body s =
      match body s' with
      | .error (e, s3) => .error (e, restoredState s.settings s3)
      | .ok (a, s3) => .ok (a, restoredState s.settings s3) := by
  have hdict : pyDictUpper [(fieldName fk, v)] = [(fieldName fk, v)] := by
    unfold pyDictUpper pyDictInsert
    simp [pyUpper_fieldName]
  by_cases hdm : fk = FieldKey.DISPLAY_MODE
  · subst hdm
    rw [show fieldName FieldKey.DISPLAY_MODE = "DISPLAY_MODE" from rfl] at h hdict ⊢
    have hd : set_display_mode v s = .ok s' := @setOption_DM_ok "DISPLAY_MODE" v s s' rfl h
    have ht : pyTruthy v = true := set_display_mode_ok_truthy hd
    have hpop : popKey [("DISPLAY_MODE", v)] "DISPLAY_MODE" = [] := by
      unfold popKey
      simp
    unfold settings_context
    rw [hdict, pyLookup_cons_self]
    simp only [ht, if_true, hd, hpop]
    exact runScope_nil_restore s.settings hvst body s'
  · have hne : fieldName fk ≠ "DISPLAY_MODE" := fun hh => hdm ((fieldName_DM_iff fk).mp hh)
    have hlk : pyLookup [(fieldName fk, v)] "DISPLAY_MODE" = none := by
      unfold pyLookup
      simp [hne]
    unfold settings_context
    rw [hdict, hlk]
    show runScope [(fieldName fk, v)] (settingsDict s.settings) body s = _
    rw [runScope_single _ _ _ _ _ _ h, runScope_nil_restore s.settings hvst body]

/-- C7: strictly nested scoped overrides of the same field restore
in reverse (LIFO) order: the body of the inner scope sees the state
produced by the inner override; when the inner scope exits, the
configuration is back to the outer-override configuration `s1`; only
when the outer scope exits is the original configuration `s`
visible again. -/
theorem settings_context_nested (fk : FieldKey) (v1 v2 : PyVal) (s s1 s2 : State)
    (hv : ValidSettings s.settings) (hv1 : ValidSettings s1.settings)
    (h1 : setOption (fieldName fk) v1 s = .ok s1)
    (h2 : setOption (fieldName fk) v2 s1 = .ok s2) :
    settings_context [(fieldName fk, v1)]
      (fun st1 =>
        match settings_context [(fieldName fk, v2)]
            (fun st2 => Except.ok (st2, st2)) st1 with
        | .ok (stI, stA) => .ok ((stI, stA), stA)
        | .error es => .error es) s =
      .ok ((s2, restoredState s1.settings s2),
           restoredState s.settings (restoredState s1.settings s2)) ∧
    (restoredState s1.settings s2).settings = s1.settings ∧
    (restoredState s.settings (restoredState s1.settings s2)).settings = s.settings := by
  refine ⟨?_, rfl, rfl⟩
  have hb : settings_context [(fieldName fk, v2)] (fun st2 => Except.ok (st2, st2)) s1
      = .ok (s2, restoredState s1.settings s2) := by
    rw [settings_context_single fk v2 hv1 h2]
  rw [settings_context_single fk v1 hv h1]
  simp only [hb]

/-- C7 witness: rows overridden to 5 in the outer scope and 3 in the
inner one over the default state — the inner body sees 3, exiting
the inner scope restores 5, exiting the outer scope restores 60. -/
theorem settings_context_nested_witness :
    ValidSettings initState.settings ∧
    ValidSettings ({initState with settings.DISPLAY_MAX_ROWS := 5, pandas.max_rows := PyVal.vInt 5} : State).settings ∧
    setOption (fieldName .DISPLAY_MAX_ROWS) (PyVal.vInt 5) initState =
      .ok {initState with settings.DISPLAY_MAX_ROWS := 5, pandas.max_rows := PyVal.vInt 5} ∧
    setOption (fieldName .DISPLAY_MAX_ROWS) (PyVal.vInt 3)
        {initState with settings.DISPLAY_MAX_ROWS := 5, pandas.max_rows := PyVal.vInt 5} =
      .ok {initState with settings.DISPLAY_MAX_ROWS := 3, pandas.max_rows := PyVal.vInt 3} ∧
    settings_context [(fieldName .DISPLAY_MAX_ROWS, PyVal.vInt 5)]
      (fun st1 =>
        match settings_context [(fieldName .DISPLAY_MAX_ROWS, PyVal.vInt 3)]
            (fun st2 => Except.ok (st2, st2)) st1 with
        | .ok (stI, stA) => .ok ((stI, stA), stA)
        | .error es => .error es) initState =
      .ok (({initState with settings.DISPLAY_MAX_ROWS := 3, pandas.max_rows := PyVal.vInt 3},
            restoredState ({initState with settings.DISPLAY_MAX_ROWS := 5, pandas.max_rows := PyVal.vInt 5} : State).settings
              {initState with settings.DISPLAY_MAX_ROWS := 3, pandas.max_rows := PyVal.vInt 3}),
           restoredState initState.settings
             (restoredState ({initState with settings.DISPLAY_MAX_ROWS := 5, pandas.max_rows := PyVal.vInt 5} : State).settings
               {initState with settings.DISPLAY_MAX_ROWS := 3, pandas.max_rows := PyVal.vInt 3})) := by
  refine ⟨by decide, by decide, by decide, by decide, ?_⟩
  exact (settings_context_nested .DISPLAY_MAX_ROWS (PyVal.vInt 5) (PyVal.vInt 3)
    initState
    {initState with settings.DISPLAY_MAX_ROWS := 5, pandas.max_rows := PyVal.vInt 5}
    {initState with settings.DISPLAY_MAX_ROWS := 3, pandas.max_rows := PyVal.vInt 3}
    (by decide) (by decide) (by decide) (by decide)).1
